import Mathlib

/-!
Verification development for the iexec-demo CLI.

The embedding below models the two pieces of design logic the repository
contains: the bulk message dispatcher of the `send-test` command (a
sequential variant and a concurrent variant) and the idempotent
subscription reconciler of the `subscribe` / `unsubscribe` commands,
plus the `withdraw` command's balance pre-check.  External collaborators
(the data-protection service and the account service) are modelled as
explicit state passing following their documented contracts; the command
logic itself is translated directly from the source.
-/

namespace IexecDemo

/-! ## Sequential send-test (the `send-test` action with the sequential loop)

In the source, the loop body declares `let result: any;` and the
`sendTelegram` / `sendEmail` calls that would assign it are commented
out, so `result` stays `undefined`.  The try block pushes the measured
duration into `sendTimes` and then evaluates `result.taskId`, which
throws a TypeError; the catch block pushes a second duration, records a
failure entry and increments the error counter. -/

/-- One contact of the sequential loop, together with the wall-clock
durations measured in the try block and in the catch block. -/
structure SeqTarget where
  address : String
  tryDurationMs : Nat
  catchDurationMs : Nat
  deriving Repr, DecidableEq

/-- The per-target result record pushed into `results`. -/
structure SendResult where
  contact : String
  taskId : Option String
  success : Bool
  error : Option String
  sendTime : Nat
  deriving Repr, DecidableEq

/-- External send calls that the loop could issue. -/
inductive ExternalCall where
  | sendTelegram (protectedData : String)
  | sendEmail (protectedData : String)
  deriving Repr, DecidableEq

/-- Message of the TypeError thrown when `result.taskId` is read while
`result` is undefined. -/
def undefinedTaskIdMessage : String :=
  "Cannot read properties of undefined (reading taskId)"

/-- Accumulator of the sequential loop: `results`, the two counters, the
per-item timing list and the trace of external send calls issued. -/
structure SeqState where
  results : List SendResult
  successCount : Nat
  errorCount : Nat
  sendTimes : List Nat
  calls : List ExternalCall
  deriving Repr, DecidableEq

/-- One iteration of the sequential for-loop.  The send call is commented
out in the source, so `result` keeps no value and no external call is
recorded; the try block pushes its duration into `sendTimes` before
`result.taskId` is read, and the read throws into the catch block. -/
def seqIter (st : SeqState) (t : SeqTarget) : SeqState :=
  let result : Option String := none
  let timesAfterTry := st.sendTimes ++ [t.tryDurationMs]
  match result with
  | some taskId =>
      { st with
        results := st.results ++ [⟨t.address, some taskId, true, none, t.tryDurationMs⟩],
        successCount := st.successCount + 1,
        sendTimes := timesAfterTry }
  | none =>
      { st with
        results := st.results ++
          [⟨t.address, none, false, some undefinedTaskIdMessage, t.catchDurationMs⟩],
        errorCount := st.errorCount + 1,
        sendTimes := timesAfterTry ++ [t.catchDurationMs] }

/-- The empty accumulator the loop starts from. -/
def seqStart : SeqState := ⟨[], 0, 0, [], []⟩

/-- The whole sequential dispatch over a contact list. -/
def seqDispatch (targets : List SeqTarget) : SeqState :=
  targets.foldl seqIter seqStart

/-- The failure record the loop produces for one target. -/
def seqFailRecord (t : SeqTarget) : SendResult :=
  ⟨t.address, none, false, some undefinedTaskIdMessage, t.catchDurationMs⟩

/-- The two timing entries one target contributes. -/
def seqTimesOf (t : SeqTarget) : List Nat :=
  [t.tryDurationMs, t.catchDurationMs]

theorem seqDispatch_go (ts : List SeqTarget) (st : SeqState) :
    ts.foldl seqIter st =
      { results := st.results ++ ts.map seqFailRecord,
        successCount := st.successCount,
        errorCount := st.errorCount + ts.length,
        sendTimes := st.sendTimes ++ (ts.map seqTimesOf).flatten,
        calls := st.calls } := by
  induction ts generalizing st with
  | nil => simp
  | cons t ts ih =>
      simp only [List.foldl_cons, ih, List.map_cons, List.flatten, List.length_cons]
      simp [seqIter, seqFailRecord, seqTimesOf]
      omega

theorem seqTimes_flatten_length (ts : List SeqTarget) :
    ((ts.map seqTimesOf).flatten).length = 2 * ts.length := by
  induction ts with
  | nil => simp
  | cons t ts ih => simp [seqTimesOf, ih]; omega

/-- Claim C3: in the sequential send-test loop the per-target send
operation is never invoked (the call is commented out, so `result` stays
undefined and reading `result.taskId` throws); consequently every target
is recorded as a failure with `success = false` and `taskId = null`, no
external send call is issued, and the per-item timing list receives two
entries per target (one from the try block, one from the catch block). -/
theorem sequential_all_targets_fail (targets : List SeqTarget) :
    (seqDispatch targets).results = targets.map seqFailRecord ∧
    ((seqDispatch targets).results.all fun r => !r.success && r.taskId == none) = true ∧
    (seqDispatch targets).successCount = 0 ∧
    (seqDispatch targets).errorCount = targets.length ∧
    (seqDispatch targets).sendTimes.length = 2 * targets.length ∧
    (seqDispatch targets).calls = [] := by
  unfold seqDispatch
  rw [seqDispatch_go]
  refine ⟨by simp [seqStart], ?_, by simp [seqStart], by simp [seqStart], ?_, by simp [seqStart]⟩
  · simp only [List.all_eq_true]
    intro r hr
    simp [seqStart] at hr
    obtain ⟨t, _, rfl⟩ := hr
    simp [seqFailRecord]
  · rw [show seqStart.sendTimes = [] from rfl, List.nil_append]
    exact seqTimes_flatten_length targets

/-- Claim C2: evaluation of the sequential send-test loop at a concrete
one-contact input.  The send operation is never invoked (the trace of
external calls is empty) and the single result is a failure with no task
id, regardless of what the send operation would have returned, so the
success flag is not determined by the outcome of the target's send
operation. -/
theorem sequential_send_never_invoked_eval :
    seqDispatch [⟨"0xAAA", 3, 5⟩] =
      { results := [⟨"0xAAA", none, false, some undefinedTaskIdMessage, 5⟩],
        successCount := 0,
        errorCount := 1,
        sendTimes := [3, 5],
        calls := [] } := by
  rfl

/-! ## Concurrent send-test (the `send-test` action in part_000)

Each contact gets an async closure that awaits the send call inside a
try/catch; both branches of the closure RETURN a result record, so the
promise the closure produces always fulfills.  The dispatcher races
`Promise.allSettled(sendPromises)` against a 60 s timeout promise; when
the timeout rejects first, the catch block AWAITS
`Promise.allSettled(sendPromises)` over the same promises, which blocks
until every send has settled. -/

/-- One contact of the concurrent path: its address, the wall-clock
instant (ms from dispatch start) at which its send settles, and the
outcome of the send call (task id, or an error message). -/
structure ConcTarget where
  address : String
  settleAtMs : Nat
  outcome : Except String String
  deriving Repr

/-- A settled promise, as reported by `Promise.allSettled`. -/
inductive PromiseSettled (α : Type) where
  | fulfilled (value : α)
  | rejected (reason : String)
  deriving Repr, DecidableEq

/-- Whether a settled promise has status fulfilled. -/
def PromiseSettled.isFulfilled : PromiseSettled α → Bool
  | .fulfilled _ => true
  | .rejected _ => false

/-- The record the per-target closure returns: the try branch returns a
success record and the catch branch returns a failure record. -/
def closureValue (t : ConcTarget) : SendResult :=
  match t.outcome with
  | .ok taskId => ⟨t.address, some taskId, true, none, t.settleAtMs⟩
  | .error msg => ⟨t.address, none, false, some msg, t.settleAtMs⟩

/-- The body of the per-target async closure: the send is awaited inside
a try/catch and both branches return normally, so the body never lets an
exception escape. -/
def sendClosureBody (t : ConcTarget) : Except String SendResult :=
  match t.outcome with
  | .ok taskId => .ok ⟨t.address, some taskId, true, none, t.settleAtMs⟩
  | .error msg => .ok ⟨t.address, none, false, some msg, t.settleAtMs⟩

/-- Running an async function body: a normal return fulfills the promise,
an escaped exception rejects it. -/
def asyncRun (body : Except String SendResult) : PromiseSettled SendResult :=
  match body with
  | .ok v => .fulfilled v
  | .error e => .rejected e

/-- The settled per-target promise. -/
def sendPromise (t : ConcTarget) : PromiseSettled SendResult :=
  asyncRun (sendClosureBody t)

/-- Instant at which `Promise.allSettled(sendPromises)` settles: when the
last send has settled. -/
def allSettledAtMs (ts : List ConcTarget) : Nat :=
  (ts.map ConcTarget.settleAtMs).foldl Nat.max 0

/-- The hardcoded 60 second dispatch timeout of the source. -/
def dispatchTimeoutMs : Nat := 60000

/-- Failure reason of the rejected-entry branch in the timeout path. -/
def timeoutReason : String := "Timeout - submission may still be in progress"

/-- Accumulator of the result-processing `forEach`. -/
structure ConcState where
  results : List SendResult
  successCount : Nat
  errorCount : Nat
  deriving Repr, DecidableEq

/-- Result processing in the normal (no timeout) path: a fulfilled entry
is pushed and counted by its own success flag; a rejected entry would be
recorded as an unknown-contact failure. -/
def processOne (st : ConcState) (r : PromiseSettled SendResult) : ConcState :=
  match r with
  | .fulfilled v =>
      if v.success then
        { results := st.results ++ [v],
          successCount := st.successCount + 1, errorCount := st.errorCount }
      else
        { results := st.results ++ [v],
          successCount := st.successCount, errorCount := st.errorCount + 1 }
  | .rejected reason =>
      { results := st.results ++
          [⟨"unknown", none, false,
            some (if reason.isEmpty then "Unknown error" else reason), 0⟩],
        successCount := st.successCount, errorCount := st.errorCount + 1 }

/-- Result processing in the timeout catch block: identical for fulfilled
entries; a rejected entry would be recorded as an unknown-contact
failure with the timeout reason and a 60 s send time. -/
def processOneTimeout (st : ConcState) (r : PromiseSettled SendResult) : ConcState :=
  match r with
  | .fulfilled v =>
      if v.success then
        { results := st.results ++ [v],
          successCount := st.successCount + 1, errorCount := st.errorCount }
      else
        { results := st.results ++ [v],
          successCount := st.successCount, errorCount := st.errorCount + 1 }
  | .rejected _ =>
      { results := st.results ++
          [⟨"unknown", none, false, some timeoutReason, 60000⟩],
        successCount := st.successCount, errorCount := st.errorCount + 1 }

/-- The summary the concurrent path produces, together with the instant
(ms from dispatch start) at which it becomes available to the caller. -/
structure ConcSummary where
  results : List SendResult
  successCount : Nat
  errorCount : Nat
  timedOut : Bool
  returnAtMs : Nat
  deriving Repr, DecidableEq

/-- The concurrent dispatch: all send promises are started, then
`Promise.allSettled` is raced against the 60 s timeout.  If every send
settles within the timeout, the settled entries are processed at that
instant.  Otherwise the timeout rejects, and the catch block awaits
`Promise.allSettled` over the same promises, so the summary only becomes
available once the last send has settled. -/
def dispatchConcurrent (ts : List ConcTarget) : ConcSummary :=
  let promises := ts.map sendPromise
  let allAt := allSettledAtMs ts
  if allAt ≤ dispatchTimeoutMs then
    let st := promises.foldl processOne ⟨[], 0, 0⟩
    ⟨st.results, st.successCount, st.errorCount, false, allAt⟩
  else
    let st := promises.foldl processOneTimeout ⟨[], 0, 0⟩
    ⟨st.results, st.successCount, st.errorCount, true, allAt⟩

theorem sendPromise_fulfilled (t : ConcTarget) :
    sendPromise t = .fulfilled (closureValue t) := by
  cases h : t.outcome <;> simp [sendPromise, sendClosureBody, asyncRun, closureValue, h]

theorem processOne_go (ts : List ConcTarget) (st : ConcState) :
    (ts.map sendPromise).foldl processOne st =
      ⟨st.results ++ ts.map closureValue,
       st.successCount + ts.countP (fun t => (closureValue t).success),
       st.errorCount + ts.countP (fun t => !(closureValue t).success)⟩ := by
  induction ts generalizing st with
  | nil => simp
  | cons t ts ih =>
      simp only [List.map_cons, List.foldl_cons, ih, sendPromise_fulfilled, processOne,
        List.countP_cons]
      by_cases h : (closureValue t).success = true <;> simp [h] <;> omega

theorem processOneTimeout_go (ts : List ConcTarget) (st : ConcState) :
    (ts.map sendPromise).foldl processOneTimeout st =
      ⟨st.results ++ ts.map closureValue,
       st.successCount + ts.countP (fun t => (closureValue t).success),
       st.errorCount + ts.countP (fun t => !(closureValue t).success)⟩ := by
  induction ts generalizing st with
  | nil => simp
  | cons t ts ih =>
      simp only [List.map_cons, List.foldl_cons, ih, sendPromise_fulfilled, processOneTimeout,
        List.countP_cons]
      by_cases h : (closureValue t).success = true <;> simp [h] <;> omega

/-- Claim C10: every per-target promise of the concurrent send-test path
fulfills (the closure catches every error and returns a result record),
so every entry of `Promise.allSettled` has status fulfilled and the
rejected-status branches of both result-processing passes are
unreachable: the result list is exactly the list of closure records, in
input order, with no unknown-contact entry and no timeout-reason entry
ever pushed. -/
theorem concurrent_rejected_branches_unreachable (ts : List ConcTarget) :
    ((ts.map sendPromise).all PromiseSettled.isFulfilled) = true ∧
    (dispatchConcurrent ts).results = ts.map closureValue := by
  constructor
  · simp only [List.all_eq_true]
    intro p hp
    simp only [List.mem_map] at hp
    obtain ⟨t, _, rfl⟩ := hp
    rw [sendPromise_fulfilled]
    rfl
  · unfold dispatchConcurrent
    by_cases h : allSettledAtMs ts ≤ dispatchTimeoutMs <;>
      simp [h, processOne_go, processOneTimeout_go]

/-- Claim C1 (failing input): concurrent dispatch of two contacts where
contact A settles successfully after 10 ms and contact B after 70000 ms,
against the hardcoded 60000 ms timeout.  The timeout fires, but the
catch block awaits all promises, so the summary only becomes available
at 70000 ms, records contact B by its actual successful outcome, and
contains no entry with a timed-out failure reason — the dispatcher
neither returns at the timeout nor records pending targets as timed
out. -/
theorem concurrent_timeout_awaits_all_eval :
    dispatchConcurrent
        [⟨"0xA", 10, .ok "t1"⟩, ⟨"0xB", 70000, .ok "t2"⟩] =
      { results := [⟨"0xA", some "t1", true, none, 10⟩,
                    ⟨"0xB", some "t2", true, none, 70000⟩],
        successCount := 2,
        errorCount := 0,
        timedOut := true,
        returnAtMs := 70000 } := by
  rfl

theorem countP_success_partition (ts : List ConcTarget) :
    ts.countP (fun t => (closureValue t).success) +
      ts.countP (fun t => !(closureValue t).success) = ts.length := by
  induction ts with
  | nil => simp
  | cons t ts ih =>
      by_cases h : (closureValue t).success = true <;>
        simp [List.countP_cons, h] <;> omega

/-- Claim C8: in both dispatch modes every target contributes to exactly
one of the two counters, so `successCount + errorCount` equals the
number of targets. -/
theorem dispatch_counts_partition :
    (∀ ts : List SeqTarget,
      (seqDispatch ts).successCount + (seqDispatch ts).errorCount = ts.length) ∧
    (∀ ts : List ConcTarget,
      (dispatchConcurrent ts).successCount + (dispatchConcurrent ts).errorCount
        = ts.length) := by
  constructor
  · intro ts
    unfold seqDispatch
    rw [seqDispatch_go]
    simp [seqStart]
  · intro ts
    unfold dispatchConcurrent
    by_cases h : allSettledAtMs ts ≤ dispatchTimeoutMs <;>
      simp [h, processOne_go, processOneTimeout_go, countP_success_partition]

/-! ## Resource reconciler (the `subscribe` and `unsubscribe` actions)

The data-protection collaborator is external; it is modelled here as
explicit state passing over a list of protected resources and a list of
grants, following the collaborator contracts stated in the spec
(`listResources` filters by owner and required schema, `grantAccess`
appends a grant, `listGrants` filters by the (resource, app, user)
triple, `createResource` returns a fresh identifier).  The subscribe and
unsubscribe control flow itself is translated from the source. -/

/-- A declared schema: field name to primitive type tag. -/
abbrev Schema := List (String × String)

/-- A protected resource held by the data-protection service. -/
structure Resource where
  address : String
  owner : String
  schema : Schema
  data : List (String × String)
  deriving Repr, DecidableEq

/-- An access grant held by the data-protection service. -/
structure Grant where
  dataset : String
  app : String
  user : String
  price : Int
  count : Int
  deriving Repr, DecidableEq

/-- The externally owned state of the data-protection service. -/
structure DPState where
  resources : List Resource
  grants : List Grant
  deriving Repr, DecidableEq

/-- Schema matching of `getProtectedData`: the resource schema must
contain every required field with the matching type. -/
def schemaMatches (required : Schema) (r : Resource) : Bool :=
  required.all fun field => r.schema.contains field

/-- Collaborator contract `getProtectedData`: resources of the given
owner whose schema matches the required schema, in listing order. -/
def getProtectedData (s : DPState) (owner : String) (required : Schema) : List Resource :=
  s.resources.filter fun r => r.owner == owner && schemaMatches required r

/-- Collaborator contract `getGrantedAccess`: the grants for one
(protected data, authorized app, authorized user) triple. -/
def getGrantedAccess (s : DPState) (protectedData app user : String) : List Grant :=
  s.grants.filter fun g => g.dataset == protectedData && g.app == app && g.user == user

/-- The schema the service derives for newly protected data: every field
of this tool's data payloads is a string. -/
def schemaOf (data : List (String × String)) : Schema :=
  data.map fun field => (field.1, "string")

/-- The fresh address the service assigns to newly protected data. -/
def freshAddress (s : DPState) : String :=
  "0xdata" ++ toString s.resources.length

/-- Collaborator contract `protectData`: creates one new protected
resource and returns its address. -/
def protectData (s : DPState) (owner : String) (data : List (String × String)) :
    String × DPState :=
  let addr := freshAddress s
  (addr, { s with resources := s.resources ++ [⟨addr, owner, schemaOf data, data⟩] })

/-- Collaborator contract `grantAccess`: appends one grant (the service
does not deduplicate: calling twice may create duplicate grants). -/
def grantAccess (s : DPState) (protectedData app user : String) (price count : Int) :
    DPState :=
  { s with grants := s.grants ++ [⟨protectedData, app, user, price, count⟩] }

/-- The existing-access scan of the subscribe action (Step 1.1): probe
each listed resource in order; a probe returning a non-empty grant set
stops the loop with that resource's address (break); an empty grant set
or a caught probe failure moves on to the next resource. -/
def checkAccessLoop (probe : Resource → Except String (List Grant)) :
    List Resource → Option String
  | [] => none
  | r :: rest =>
      match probe r with
      | .ok granted => if granted.isEmpty then checkAccessLoop probe rest else some r.address
      | .error _ => checkAccessLoop probe rest

/-- Inputs of one subscribe reconciliation. -/
structure SubscribeParams where
  owner : String
  dataKey : String
  dataInput : String
  appAddress : String
  authorizedUser : String
  pricePerAccess : Int
  numberOfAccess : Int
  deriving Repr, DecidableEq

/-- The required schema the subscribe action lists with: the service data
key plus the fixed `apebonddata` marker field, both strings. -/
def requiredSchema (dataKey : String) : Schema :=
  [(dataKey, "string"), ("apebonddata", "string")]

/-- The three reconciliation outcomes of the subscribe action. -/
inductive SubscribeOutcome where
  | alreadySubscribed (address : String)
  | grantedToExisting (address : String)
  | createdAndGranted (address : String)
  deriving Repr, DecidableEq

/-- The subscribe reconciliation: list existing protected data for the
owner and required schema; if the list is non-empty, scan it for a
resource that already has a grant for (app, user) — on a hit, reuse it
and grant nothing; on no hit, reuse the first listed resource and grant
access; if the list is empty, protect new data (the desired field plus
the `apebonddata` marker) and grant access. -/
def subscribeCore (p : SubscribeParams) (s : DPState) : SubscribeOutcome × DPState :=
  let listed := getProtectedData s p.owner (requiredSchema p.dataKey)
  match listed with
  | [] =>
      let created := protectData s p.owner
        [(p.dataKey, p.dataInput), ("apebonddata", "apebond")]
      let granted := grantAccess created.2 created.1 p.appAddress p.authorizedUser
        p.pricePerAccess p.numberOfAccess
      (.createdAndGranted created.1, granted)
  | first :: _ =>
      match checkAccessLoop
          (fun r => .ok (getGrantedAccess s r.address p.appAddress p.authorizedUser))
          listed with
      | some addr => (.alreadySubscribed addr, s)
      | none =>
          let granted := grantAccess s first.address p.appAddress p.authorizedUser
            p.pricePerAccess p.numberOfAccess
          (.grantedToExisting first.address, granted)

theorem contains_self_all (l : Schema) : (l.all fun field => l.contains field) = true := by
  simp only [List.all_eq_true]
  intro x hx
  exact List.elem_eq_true_of_mem hx

theorem checkAccessLoop_eq_find (probe : Resource → Except String (List Grant))
    (l : List Resource) :
    checkAccessLoop probe l =
      (l.find? fun r =>
        match probe r with
        | .ok granted => !granted.isEmpty
        | .error _ => false).map Resource.address := by
  induction l with
  | nil => rfl
  | cons r rest ih =>
      rw [checkAccessLoop, List.find?_cons]
      cases hp : probe r with
      | ok granted =>
          cases hg : granted.isEmpty <;> simp [hp, hg, ih]
      | error e => simp [hp, ih]

theorem subscribeCore_empty_listing (p : SubscribeParams) (s : DPState)
    (h : getProtectedData s p.owner (requiredSchema p.dataKey) = []) :
    subscribeCore p s =
      (.createdAndGranted (freshAddress s),
       { resources := s.resources ++
           [⟨freshAddress s, p.owner, requiredSchema p.dataKey,
             [(p.dataKey, p.dataInput), ("apebonddata", "apebond")]⟩],
         grants := s.grants ++
           [⟨freshAddress s, p.appAddress, p.authorizedUser,
             p.pricePerAccess, p.numberOfAccess⟩] }) := by
  simp only [subscribeCore, h]
  simp [protectData, grantAccess, schemaOf, requiredSchema]

/-- Claim C5: whenever the listing of existing protected resources is
empty, the subscribe reconciliation creates exactly one new protected
resource (the desired field value merged with the fixed `apebonddata`
marker field), then grants access once, and its outcome is
CREATED_AND_GRANTED — never ALREADY_SUBSCRIBED or GRANTED_TO_EXISTING. -/
theorem reconcile_creates_when_listing_empty (p : SubscribeParams) (s : DPState)
    (h : getProtectedData s p.owner (requiredSchema p.dataKey) = []) :
    subscribeCore p s =
      (.createdAndGranted (freshAddress s),
       { resources := s.resources ++
           [⟨freshAddress s, p.owner, requiredSchema p.dataKey,
             [(p.dataKey, p.dataInput), ("apebonddata", "apebond")]⟩],
         grants := s.grants ++
           [⟨freshAddress s, p.appAddress, p.authorizedUser,
             p.pricePerAccess, p.numberOfAccess⟩] }) :=
  subscribeCore_empty_listing p s h

/-- Witness for claim C5 at a concrete input: an empty service state. -/
theorem reconcile_creates_when_listing_empty_witness :
    subscribeCore
        ⟨"0xowner", "email", "a@b.com", "0xapp", "0xuser", 0, 10⟩ ⟨[], []⟩ =
      (.createdAndGranted "0xdata0",
       { resources := [⟨"0xdata0", "0xowner", requiredSchema "email",
           [("email", "a@b.com"), ("apebonddata", "apebond")]⟩],
         grants := [⟨"0xdata0", "0xapp", "0xuser", 0, 10⟩] }) := by
  have h := reconcile_creates_when_listing_empty
    ⟨"0xowner", "email", "a@b.com", "0xapp", "0xuser", 0, 10⟩ ⟨[], []⟩ rfl
  simpa [freshAddress] using h

/-- Claim C6: when the listing of existing resources is non-empty, the
access scan stops at the first listed resource whose grant query returns
a non-empty grant set (`List.find?` returns the first match in listing
order); for such an input the reconciliation performs no resource
creation, issues no new grant (the service state is returned unchanged),
and the outcome is ALREADY_SUBSCRIBED with that resource's address. -/
theorem reconcile_first_grant_wins (p : SubscribeParams) (s : DPState) (r : Resource)
    (h : (getProtectedData s p.owner (requiredSchema p.dataKey)).find?
          (fun x => !(getGrantedAccess s x.address p.appAddress p.authorizedUser).isEmpty)
          = some r) :
    subscribeCore p s = (.alreadySubscribed r.address, s) := by
  have hne : getProtectedData s p.owner (requiredSchema p.dataKey) ≠ [] := by
    intro h0
    rw [h0] at h
    simp at h
  cases hl : getProtectedData s p.owner (requiredSchema p.dataKey) with
  | nil => exact absurd hl hne
  | cons first rest =>
      rw [hl] at h
      simp only [subscribeCore, hl, checkAccessLoop_eq_find, h]
      rfl

/-- Witness for claim C6 at a concrete input: one listed resource that
already holds a grant for the (app, user) pair. -/
theorem reconcile_first_grant_wins_witness :
    subscribeCore ⟨"0xowner", "email", "a@b.com", "0xapp", "0xuser", 0, 10⟩
        ⟨[⟨"0xdata0", "0xowner", requiredSchema "email",
            [("email", "a@b.com"), ("apebonddata", "apebond")]⟩],
          [⟨"0xdata0", "0xapp", "0xuser", 0, 10⟩]⟩ =
      (.alreadySubscribed "0xdata0",
       ⟨[⟨"0xdata0", "0xowner", requiredSchema "email",
            [("email", "a@b.com"), ("apebonddata", "apebond")]⟩],
          [⟨"0xdata0", "0xapp", "0xuser", 0, 10⟩]⟩) := by
  exact reconcile_first_grant_wins
    ⟨"0xowner", "email", "a@b.com", "0xapp", "0xuser", 0, 10⟩ _
    ⟨"0xdata0", "0xowner", requiredSchema "email",
      [("email", "a@b.com"), ("apebonddata", "apebond")]⟩
    (by rfl)

/-- Claim C4: idempotence of the subscribe reconciliation.  If a first
call created a protected resource and granted access (outcome
CREATED_AND_GRANTED), a second call with identical inputs against the
resulting service state creates no second resource and issues no second
grant (the state is returned unchanged) and returns ALREADY_SUBSCRIBED
for the resource the first call created. -/
theorem reconcile_idempotent (p : SubscribeParams) (s s1 : DPState) (addr : String)
    (h : subscribeCore p s = (.createdAndGranted addr, s1)) :
    subscribeCore p s1 = (.alreadySubscribed addr, s1) := by
  have hl : getProtectedData s p.owner (requiredSchema p.dataKey) = [] := by
    cases hcase : getProtectedData s p.owner (requiredSchema p.dataKey) with
    | nil => rfl
    | cons first rest =>
        exfalso
        simp only [subscribeCore, hcase] at h
        cases hc : checkAccessLoop
            (fun r => .ok (getGrantedAccess s r.address p.appAddress p.authorizedUser))
            (first :: rest) with
        | some a => rw [hc] at h; simp at h
        | none => rw [hc] at h; simp at h
  rw [subscribeCore_empty_listing p s hl, Prod.mk.injEq] at h
  obtain ⟨h1, rfl⟩ := h
  rw [SubscribeOutcome.createdAndGranted.injEq] at h1
  subst h1
  have hfilter : (s.resources.filter fun r =>
      r.owner == p.owner && schemaMatches (requiredSchema p.dataKey) r) = [] := by
    simpa [getProtectedData] using hl
  have hlist2 : getProtectedData
      { resources := s.resources ++
          [⟨freshAddress s, p.owner, requiredSchema p.dataKey,
            [(p.dataKey, p.dataInput), ("apebonddata", "apebond")]⟩],
        grants := s.grants ++
          [⟨freshAddress s, p.appAddress, p.authorizedUser,
            p.pricePerAccess, p.numberOfAccess⟩] }
      p.owner (requiredSchema p.dataKey) =
      [⟨freshAddress s, p.owner, requiredSchema p.dataKey,
        [(p.dataKey, p.dataInput), ("apebonddata", "apebond")]⟩] := by
    show List.filter _ (s.resources ++ _) = _
    rw [List.filter_append, hfilter]
    simp [schemaMatches, contains_self_all]
  simp only [subscribeCore, hlist2, checkAccessLoop]
  simp [getGrantedAccess, List.filter_append]

/-- Witness for claim C4 at a concrete input: a first subscribe call on
an empty service state, then a second call on the state it produced. -/
theorem reconcile_idempotent_witness :
    subscribeCore ⟨"0xme", "telegram_chatId", "12345", "0xtgapp", "0xuser2", 1, 7⟩
        ⟨[⟨"0xdata0", "0xme", requiredSchema "telegram_chatId",
            [("telegram_chatId", "12345"), ("apebonddata", "apebond")]⟩],
          [⟨"0xdata0", "0xtgapp", "0xuser2", 1, 7⟩]⟩ =
      (.alreadySubscribed "0xdata0",
       ⟨[⟨"0xdata0", "0xme", requiredSchema "telegram_chatId",
            [("telegram_chatId", "12345"), ("apebonddata", "apebond")]⟩],
          [⟨"0xdata0", "0xtgapp", "0xuser2", 1, 7⟩]⟩) :=
  reconcile_idempotent
    ⟨"0xme", "telegram_chatId", "12345", "0xtgapp", "0xuser2", 1, 7⟩
    ⟨[], []⟩ _ "0xdata0" (by decide)

/-- Replacing a probe failure by an empty grant set: the semantics the
catch blocks of the subscribe and unsubscribe scans give to a failed
per-resource grant query. -/
def recoverProbe (probe : Resource → Except String (List Grant)) :
    Resource → Except String (List Grant) :=
  fun r =>
    match probe r with
    | .ok granted => .ok granted
    | .error _ => .ok []

/-- Step 2 of the unsubscribe action: collect the granted accesses of
every listed resource in order; a caught per-resource probe failure
contributes nothing and the loop moves on. -/
def gatherGrants (probe : Resource → Except String (List Grant)) :
    List Resource → List Grant
  | [] => []
  | r :: rest =>
      match probe r with
      | .ok granted => granted ++ gatherGrants probe rest
      | .error _ => gatherGrants probe rest

/-- Step 3 of the unsubscribe action: revoke every collected grant; a
successful revoke increments `totalRevoked`, a caught revoke failure is
logged and the loop moves on. -/
def revokeLoop (revoke : Grant → Except String Unit) : List Grant → Nat
  | [] => 0
  | g :: rest =>
      match revoke g with
      | .ok _ => revokeLoop revoke rest + 1
      | .error _ => revokeLoop revoke rest

/-- Whether the revoke call for one grant succeeds. -/
def revokeOk (revoke : Grant → Except String Unit) (g : Grant) : Bool :=
  match revoke g with
  | .ok _ => true
  | .error _ => false

/-- Claim C7: per-item collaborator failures are isolated.  The access
scan and the grant-gathering loop behave exactly as if every failing
probe had returned an empty grant set (the failure is treated as "no
grant found" and the scan continues with the remaining resources), and
the revoke loop processes every collected grant, counting exactly the
grants whose revoke call succeeds, regardless of which revoke calls
fail. -/
theorem per_item_failures_isolated :
    (∀ (probe : Resource → Except String (List Grant)) (l : List Resource),
      checkAccessLoop probe l = checkAccessLoop (recoverProbe probe) l) ∧
    (∀ (probe : Resource → Except String (List Grant)) (l : List Resource),
      gatherGrants probe l = gatherGrants (recoverProbe probe) l) ∧
    (∀ (revoke : Grant → Except String Unit) (gs : List Grant),
      revokeLoop revoke gs = gs.countP (revokeOk revoke)) := by
  refine ⟨fun probe l => ?_, fun probe l => ?_, fun revoke gs => ?_⟩
  · induction l with
    | nil => rfl
    | cons r rest ih =>
        rw [checkAccessLoop, checkAccessLoop]
        cases hp : probe r with
        | ok granted =>
            cases hg : granted.isEmpty <;> simp [recoverProbe, hp, hg, ih]
        | error e => simp [recoverProbe, hp, ih]
  · induction l with
    | nil => rfl
    | cons r rest ih =>
        rw [gatherGrants, gatherGrants]
        cases hp : probe r with
        | ok granted => simp [recoverProbe, hp, ih]
        | error e => simp [recoverProbe, hp, ih]
  · induction gs with
    | nil => rfl
    | cons g rest ih =>
        rw [revokeLoop, List.countP_cons]
        cases hr : revoke g with
        | ok u => simp [revokeOk, hr, ih]
        | error e => simp [revokeOk, hr, ih]

/-! ## Withdraw (the `withdraw` action)

The account collaborator returns a balance with staked and locked
amounts (integers, smallest unit); the command computes the available
balance as stake minus locked, returns early when it is exactly zero,
pre-validates an explicitly requested amount against the available
balance before the confirmation prompt, and only then issues the
withdraw call. -/

/-- The balance the account service reports. -/
structure Balance where
  stake : Int
  locked : Int
  deriving Repr, DecidableEq

/-- Available balance: stake minus locked. -/
def availableBalance (b : Balance) : Int := b.stake - b.locked

/-- External account calls the withdraw command can issue. -/
inductive AccountCall where
  | withdrawCall (amountNano : Int)
  deriving Repr, DecidableEq

/-- The observable outcomes of the withdraw command. -/
inductive WithdrawOutcome where
  | noAvailableBalance
  | insufficientBalance
  | cancelled
  | withdrawn (amountNano : Int)
  deriving Repr, DecidableEq

/-- The withdraw command over a fetched balance: early return when the
available balance is exactly zero; with an explicit requested amount,
the insufficient-balance error is thrown when the request exceeds the
available balance, before the confirmation prompt and before any
withdraw call; otherwise the full available balance is withdrawn.  The
second component is the trace of account calls issued. -/
def withdrawCmd (b : Balance) (requestedNano : Option Int) (confirm : Bool) :
    WithdrawOutcome × List AccountCall :=
  let avail := availableBalance b
  if avail = 0 then (.noAvailableBalance, [])
  else
    match requestedNano with
    | some req =>
        if req > avail then (.insufficientBalance, [])
        else if confirm then (.withdrawn req, [.withdrawCall req])
        else (.cancelled, [])
    | none =>
        if confirm then (.withdrawn avail, [.withdrawCall avail])
        else (.cancelled, [])

/-- Claim C9 (counterexample): when the requested amount exceeds the
available balance but the available balance is exactly zero (stake 4,
locked 4, request 10), the command takes the early no-balance return and
does not raise the insufficient-balance error the claim promises for
every excessive request (no withdraw call is issued either way). -/
theorem withdraw_zero_available_counterexample :
    10 > availableBalance ⟨4, 4⟩ ∧
    withdrawCmd ⟨4, 4⟩ (some 10) true = (.noAvailableBalance, []) ∧
    (withdrawCmd ⟨4, 4⟩ (some 10) true).1 ≠ WithdrawOutcome.insufficientBalance := by
  refine ⟨by decide, by decide, by decide⟩

/-- Claim C9 as amended: for every withdrawal whose requested amount
exceeds the non-zero available balance (stake minus locked) fetched
beforehand, the withdraw command raises the insufficient-balance error
before any withdraw call is issued to the collaborator — the trace of
account calls is empty, so the external account state is untouched. -/
theorem withdraw_precheck_nonzero (b : Balance) (req : Int) (confirm : Bool)
    (h0 : availableBalance b ≠ 0) (h : req > availableBalance b) :
    withdrawCmd b (some req) confirm = (.insufficientBalance, []) := by
  simp [withdrawCmd, h0, h]

/-- Witness for the amended claim C9 at a concrete input: available
balance 4, requested amount 10. -/
theorem withdraw_precheck_nonzero_witness :
    withdrawCmd ⟨4, 0⟩ (some 10) true = (.insufficientBalance, []) :=
  withdraw_precheck_nonzero ⟨4, 0⟩ 10 true (by decide) (by decide)
